import Mathlib

/-!
Shallow embedding of `src/vs/editor/contrib/clipboard/clipboard.ts`:
capability detection, command registration, keybinding/menu metadata and
the two-priority dispatch chain for cut/copy/paste, plus the
copy-with-syntax-highlighting editor action.
-/

/-- Host environment observed at module load: `platform.isNative`,
`browser.isChrome`, `browser.isEdge` and `document.queryCommandSupported`. -/
structure Env where
  isNative : Bool
  isChrome : Bool
  isEdge : Bool
  queryCommandSupported : String → Bool

/-- `const supportsCut = (platform.isNative || document.queryCommandSupported('cut'))` -/
def supportsCut (env : Env) : Bool :=
  env.isNative || env.queryCommandSupported "cut"

/-- `const supportsCopy = (platform.isNative || document.queryCommandSupported('copy'))` -/
def supportsCopy (env : Env) : Bool :=
  env.isNative || env.queryCommandSupported "copy"

/-- `const supportsCopyWithSyntaxHighlighting = (supportsCopy && !browser.isEdge)` -/
def supportsCopyWithSyntaxHighlighting (env : Env) : Bool :=
  supportsCopy env && !env.isEdge

/-- `const supportsPaste = (platform.isNative || (!browser.isChrome && document.queryCommandSupported('paste')))` -/
def supportsPaste (env : Env) : Bool :=
  env.isNative || (!env.isChrome && env.queryCommandSupported "paste")

/-- Modelled from the spec: the keybinding modifier constants of
`vs/base/common/keyCodes` (`KeyMod`), whose source is not part of this
excerpt; only their identity matters to the claims. -/
def KeyMod.CtrlCmd : Nat := 2048

/-- Modelled from the spec: `KeyMod.Shift` of `vs/base/common/keyCodes`. -/
def KeyMod.Shift : Nat := 1024

/-- Modelled from the spec: key code for the X key (`KeyCode.KEY_X`). -/
def KeyCode.KEY_X : Nat := 54

/-- Modelled from the spec: key code for the C key (`KeyCode.KEY_C`). -/
def KeyCode.KEY_C : Nat := 33

/-- Modelled from the spec: key code for the V key (`KeyCode.KEY_V`). -/
def KeyCode.KEY_V : Nat := 52

/-- Modelled from the spec: key code for the Delete key (`KeyCode.Delete`). -/
def KeyCode.Delete : Nat := 20

/-- Modelled from the spec: key code for the Insert key (`KeyCode.Insert`). -/
def KeyCode.Insert : Nat := 19

/-- Modelled from the spec: `KeybindingWeight.EditorContrib` of
`vs/platform/keybinding/common/keybindingsRegistry`; only its identity
matters to the claims. -/
def KeybindingWeight.EditorContrib : Nat := 100

/-- The context-key expressions this module references
(`EditorContextKeys.textInputFocus`, `EditorContextKeys.writable`). -/
inductive ContextKeyExpr where
  | textInputFocus
  | writable
deriving DecidableEq, Repr

/-- The menu identifiers this module references. -/
inductive MenuId where
  | MenubarEditMenu
  | EditorContext
  | CommandPalette
deriving DecidableEq, Repr

/-- A per-OS keybinding override (the `win:` / `linux:` objects). -/
structure PlatformBinding where
  primary : Nat
  secondary : List Nat
deriving DecidableEq, Repr

/-- The `kbOpts` record of a command registration. -/
structure KbOpts where
  kbExpr : ContextKeyExpr
  primary : Nat
  win : Option PlatformBinding
  linux : Option PlatformBinding
  weight : Nat
deriving DecidableEq, Repr

/-- One entry of a command's `menuOpts` array. -/
structure MenuOpt where
  menuId : MenuId
  group : String
  title : String
  «when» : Option ContextKeyExpr
  order : Nat
deriving DecidableEq, Repr

/-- The declarative part of a `MultiCommand` registration. -/
structure MultiCommandDesc where
  id : String
  kbOpts : Option KbOpts
  menuOpts : List MenuOpt
deriving DecidableEq, Repr

def CLIPBOARD_CONTEXT_MENU_GROUP : String := "9_cutcopypaste"

/-- The `MultiCommand` descriptor passed for the cut command. -/
def cutCommandDesc (env : Env) : MultiCommandDesc :=
  { id := "editor.action.clipboardCutAction"
    kbOpts :=
      if env.isNative then
        some { kbExpr := ContextKeyExpr.textInputFocus
               primary := KeyMod.CtrlCmd ||| KeyCode.KEY_X
               win := some { primary := KeyMod.CtrlCmd ||| KeyCode.KEY_X
                             secondary := [KeyMod.Shift ||| KeyCode.Delete] }
               linux := none
               weight := KeybindingWeight.EditorContrib }
      else none
    menuOpts :=
      [ { menuId := MenuId.MenubarEditMenu, group := "2_ccp"
          title := "Cu&&t", «when» := none, order := 1 }
      , { menuId := MenuId.EditorContext, group := CLIPBOARD_CONTEXT_MENU_GROUP
          title := "Cut", «when» := some ContextKeyExpr.writable, order := 1 }
      , { menuId := MenuId.CommandPalette, group := ""
          title := "Cut", «when» := none, order := 1 } ] }

/-- The `MultiCommand` descriptor passed for the copy command. -/
def copyCommandDesc (env : Env) : MultiCommandDesc :=
  { id := "editor.action.clipboardCopyAction"
    kbOpts :=
      if env.isNative then
        some { kbExpr := ContextKeyExpr.textInputFocus
               primary := KeyMod.CtrlCmd ||| KeyCode.KEY_C
               win := some { primary := KeyMod.CtrlCmd ||| KeyCode.KEY_C
                             secondary := [KeyMod.CtrlCmd ||| KeyCode.Insert] }
               linux := none
               weight := KeybindingWeight.EditorContrib }
      else none
    menuOpts :=
      [ { menuId := MenuId.MenubarEditMenu, group := "2_ccp"
          title := "&&Copy", «when» := none, order := 2 }
      , { menuId := MenuId.EditorContext, group := CLIPBOARD_CONTEXT_MENU_GROUP
          title := "Copy", «when» := none, order := 2 }
      , { menuId := MenuId.CommandPalette, group := ""
          title := "Copy", «when» := none, order := 1 } ] }

/-- The `MultiCommand` descriptor passed for the paste command. -/
def pasteCommandDesc (env : Env) : MultiCommandDesc :=
  { id := "editor.action.clipboardPasteAction"
    kbOpts :=
      if env.isNative then
        some { kbExpr := ContextKeyExpr.textInputFocus
               primary := KeyMod.CtrlCmd ||| KeyCode.KEY_V
               win := some { primary := KeyMod.CtrlCmd ||| KeyCode.KEY_V
                             secondary := [KeyMod.Shift ||| KeyCode.Insert] }
               linux := some { primary := KeyMod.CtrlCmd ||| KeyCode.KEY_V
                               secondary := [KeyMod.Shift ||| KeyCode.Insert] }
               weight := KeybindingWeight.EditorContrib }
      else none
    menuOpts :=
      [ { menuId := MenuId.MenubarEditMenu, group := "2_ccp"
          title := "&&Paste", «when» := none, order := 3 }
      , { menuId := MenuId.EditorContext, group := CLIPBOARD_CONTEXT_MENU_GROUP
          title := "Paste", «when» := some ContextKeyExpr.writable, order := 3 }
      , { menuId := MenuId.CommandPalette, group := ""
          title := "Paste", «when» := none, order := 1 } ] }

/-- `export const CutAction = supportsCut ? registerCommand(new MultiCommand({...})) : undefined` -/
def CutAction (env : Env) : Option MultiCommandDesc :=
  if supportsCut env then some (cutCommandDesc env) else none

/-- `export const CopyAction = supportsCopy ? registerCommand(new MultiCommand({...})) : undefined` -/
def CopyAction (env : Env) : Option MultiCommandDesc :=
  if supportsCopy env then some (copyCommandDesc env) else none

/-- `export const PasteAction = supportsPaste ? registerCommand(new MultiCommand({...})) : undefined` -/
def PasteAction (env : Env) : Option MultiCommandDesc :=
  if supportsPaste env then some (pasteCommandDesc env) else none

/-- The command ids registered (via `registerCommand` → `command.register()`)
while the module initialises, in order. -/
def registeredCommandIds (env : Env) : List String :=
  ((CutAction env).map MultiCommandDesc.id).toList ++
  ((CopyAction env).map MultiCommandDesc.id).toList ++
  ((PasteAction env).map MultiCommandDesc.id).toList

/-- The part of a selection the dispatch logic inspects (`isEmpty`). -/
structure Selection where
  isEmpty : Bool
deriving DecidableEq, Repr

/-- The part of a focused code editor the dispatch logic inspects:
`hasTextFocus()`, `getOption(EditorOption.emptySelectionClipboard)` and
`getSelection()` (which may be null). -/
structure CodeEditor where
  hasTextFocus : Bool
  emptySelectionClipboard : Bool
  selection : Option Selection
deriving DecidableEq, Repr

/-- The ambient focus state: `codeEditorService.getFocusedCodeEditor()`. -/
structure FocusState where
  focusedCodeEditor : Option CodeEditor
deriving DecidableEq, Repr

/-- An observable side effect of running a dispatch implementation. -/
inductive Effect where
  | execCommand (cmd : String)
deriving DecidableEq, Repr

/-- The priority-10000 implementation installed by `registerExecCommandImpl`:
handle the command when a code editor has text focus; for cut/copy swallow
the command when the selection is empty and `emptySelectionClipboard` is off.
Returns the emitted effects and whether the command was handled. -/
def editorFocusImpl (browserCommand : String) (st : FocusState) :
    List Effect × Bool :=
  match st.focusedCodeEditor with
  | some focusedEditor =>
    if focusedEditor.hasTextFocus then
      if browserCommand = "cut" ∨ browserCommand = "copy" then
        -- Do not execute if there is no selection and empty selection clipboard is off
        let emptySelectionClipboard := focusedEditor.emptySelectionClipboard
        match focusedEditor.selection with
        | some selection =>
          if selection.isEmpty && !emptySelectionClipboard then
            ([], true)
          else
            ([Effect.execCommand browserCommand], true)
        | none => ([Effect.execCommand browserCommand], true)
      else
        ([Effect.execCommand browserCommand], true)
    else
      ([], false)
  | none => ([], false)

/-- The priority-0 fallback implementation installed by
`registerExecCommandImpl`: always invoke the clipboard primitive on the
ambient focus target. -/
def fallbackImpl (browserCommand : String) (_st : FocusState) :
    List Effect × Bool :=
  ([Effect.execCommand browserCommand], true)

/-- `registerExecCommandImpl`: when the command exists, install the two
implementations (priority 10000 then priority 0); when it is `undefined`,
install nothing. -/
def registerExecCommandImpl (target : Option MultiCommandDesc)
    (browserCommand : String) :
    List (Nat × (FocusState → List Effect × Bool)) :=
  match target with
  | none => []
  | some _ =>
    [(10000, editorFocusImpl browserCommand), (0, fallbackImpl browserCommand)]

/-- Run a `MultiCommand`'s implementation chain, highest priority first,
until one reports the command handled. Returns the emitted effects and the
priority of the implementation that handled the command, if any. -/
def runImpls :
    List (Nat × (FocusState → List Effect × Bool)) → FocusState →
    List Effect × Option Nat
  | [], _ => ([], none)
  | (prio, impl) :: rest, st =>
    let r := impl st
    if r.2 then (r.1, some prio)
    else
      let r2 := runImpls rest st
      (r.1 ++ r2.1, r2.2)

/-- Dispatch of one of the registered clipboard commands (the chain
installed by `registerExecCommandImpl` on an existing `MultiCommand`). -/
def dispatch (browserCommand : String) (st : FocusState) :
    List Effect × Option Nat :=
  runImpls
    [(10000, editorFocusImpl browserCommand), (0, fallbackImpl browserCommand)]
    st

/-- Modelled from the spec: "if a focused text-editing surface exists and
(for cut/copy) the selection is non-empty or empty-selection-clipboard is
enabled". This follows the spec's words, to be compared with the code's
dispatch chain. -/
def specGuardHolds (st : FocusState) : Bool :=
  match st.focusedCodeEditor with
  | some focusedEditor =>
    focusedEditor.hasTextFocus &&
      ((match focusedEditor.selection with
        | some selection => !selection.isEmpty
        | none => false) || focusedEditor.emptySelectionClipboard)
  | none => false

/-- The part of the editor the copy-with-syntax-highlighting action's `run`
inspects: `hasModel()`, the `emptySelectionClipboard` option and whether
`getSelection()` is empty. -/
structure CwshEditor where
  hasModel : Bool
  emptySelectionClipboard : Bool
  selectionIsEmpty : Bool
deriving DecidableEq, Repr

/-- One step of the copy-with-syntax-highlighting action's trace. -/
inductive RunStep where
  | setFlag (b : Bool)
  | focusEditor
  | execCommand (cmd : String)
deriving DecidableEq, Repr

/-- `ExecCommandCopyWithSyntaxHighlightingAction.run`, as a function of the
editor and of the incoming value of the process-wide flag
`CopyOptions.forceCopyWithSyntaxHighlighting`; returns the trace of steps
taken and the flag's value when `run` returns. -/
def ExecCommandCopyWithSyntaxHighlightingAction.run
    (editor : CwshEditor) (forceCopyWithSyntaxHighlighting : Bool) :
    List RunStep × Bool :=
  if !editor.hasModel then
    ([], forceCopyWithSyntaxHighlighting)
  else
    let emptySelectionClipboard := editor.emptySelectionClipboard
    if !emptySelectionClipboard && editor.selectionIsEmpty then
      ([], forceCopyWithSyntaxHighlighting)
    else
      ([ RunStep.setFlag true
       , RunStep.focusEditor
       , RunStep.execCommand "copy"
       , RunStep.setFlag false ], false)

/-- The editor-action descriptor of
`ExecCommandCopyWithSyntaxHighlightingAction` (its constructor's `super`
call). -/
def copyWithSyntaxHighlightingDesc : MultiCommandDesc :=
  { id := "editor.action.clipboardCopyWithSyntaxHighlightingAction"
    kbOpts := some { kbExpr := ContextKeyExpr.textInputFocus
                     primary := 0
                     win := none
                     linux := none
                     weight := KeybindingWeight.EditorContrib }
    menuOpts := [] }

/-- The editor-action ids passed to `registerEditorAction` while the module
initialises: the syntax-highlighting copy action, guarded by
`supportsCopyWithSyntaxHighlighting`. -/
def registeredEditorActionIds (env : Env) : List String :=
  if supportsCopyWithSyntaxHighlighting env then
    [copyWithSyntaxHighlightingDesc.id]
  else
    []

/-- Whether some code editor currently has text focus. -/
def hasTextFocusedEditor (st : FocusState) : Bool :=
  match st.focusedCodeEditor with
  | some focusedEditor => focusedEditor.hasTextFocus
  | none => false

/-- C1 counterexample: with a text-focused editor whose selection is empty
and whose empty-selection-clipboard option is off, the spec's guard does not
hold, yet the priority-0 fallback does not run and no clipboard primitive is
invoked: the priority-10000 implementation handles the command with no
effects. -/
theorem c1_counterexample :
    specGuardHolds ⟨some ⟨true, false, some ⟨true⟩⟩⟩ = false ∧
    dispatch "copy" ⟨some ⟨true, false, some ⟨true⟩⟩⟩ ≠
      ([Effect.execCommand "copy"], some 0) ∧
    dispatch "copy" ⟨some ⟨true, false, some ⟨true⟩⟩⟩ = ([], some 10000) := by
  refine ⟨rfl, ?_, rfl⟩
  decide

/-- C1 (amended): for cut and copy, the priority-0 fallback handles the
command exactly in those invocations where no code editor has text focus —
and then it performs the clipboard call; whenever a text-focused editor
exists the command is handled at priority 10000, and in the case where its
selection exists, is empty, and empty-selection-clipboard is off, that
happens with no clipboard call at all. -/
theorem c1_fallback_runs_iff_no_text_focus (cmd : String) (st : FocusState)
    (hcmd : cmd = "cut" ∨ cmd = "copy") :
    ((dispatch cmd st).2 = some 0 ↔ hasTextFocusedEditor st = false) ∧
    (hasTextFocusedEditor st = false →
      dispatch cmd st = ([Effect.execCommand cmd], some 0)) ∧
    (∀ ed sel, st.focusedCodeEditor = some ed → ed.hasTextFocus = true →
      ed.selection = some sel → sel.isEmpty = true →
      ed.emptySelectionClipboard = false →
      dispatch cmd st = ([], some 10000)) := by
  have hfb : hasTextFocusedEditor st = false →
      dispatch cmd st = ([Effect.execCommand cmd], some 0) := by
    intro hfocus
    rcases hst : st.focusedCodeEditor with _ | ed
    · simp [dispatch, runImpls, editorFocusImpl, fallbackImpl, hst]
    · have : ed.hasTextFocus = false := by
        simpa [hasTextFocusedEditor, hst] using hfocus
      simp [dispatch, runImpls, editorFocusImpl, fallbackImpl, hst, this]
  have hhandled : hasTextFocusedEditor st = true →
      (dispatch cmd st).2 = some 10000 := by
    intro hfocus
    rcases hst : st.focusedCodeEditor with _ | ed
    · simp [hasTextFocusedEditor, hst] at hfocus
    · have hed : ed.hasTextFocus = true := by
        simpa [hasTextFocusedEditor, hst] using hfocus
      by_cases hc : cmd = "cut" ∨ cmd = "copy"
      · rcases hsel : ed.selection with _ | sel
        · simp [dispatch, runImpls, editorFocusImpl, hst, hed, hc, hsel]
        · rcases he : (sel.isEmpty && !ed.emptySelectionClipboard) <;>
            simp [dispatch, runImpls, editorFocusImpl, hst, hed, hc,
              hsel, he]
      · simp [dispatch, runImpls, editorFocusImpl, hst, hed, hc]
  refine ⟨⟨fun h0 => ?_, fun hfocus => by rw [hfb hfocus]⟩, hfb, ?_⟩
  · rcases hfoc : hasTextFocusedEditor st with _ | _
    · rfl
    · have h10 := hhandled hfoc
      rw [h0] at h10
      simp at h10
  · intro ed sel hst hfocus hsel hempty hesc
    rcases hcmd with h | h <;>
      simp [dispatch, runImpls, editorFocusImpl, h, hst, hfocus, hsel,
        hempty, hesc]

/-- C1 witness: at concrete states the fallback runs when nothing has text
focus, the empty-selection case is swallowed at priority 10000, and at a
text-focused editor with a non-empty selection the fallback does not
handle the command. -/
theorem c1_fallback_witness :
    dispatch "cut" ⟨none⟩ = ([Effect.execCommand "cut"], some 0) ∧
    dispatch "cut" ⟨some ⟨true, false, some ⟨true⟩⟩⟩ = ([], some 10000) ∧
    ((dispatch "cut" ⟨some ⟨true, false, some ⟨false⟩⟩⟩).2 = some 0 ↔
      hasTextFocusedEditor ⟨some ⟨true, false, some ⟨false⟩⟩⟩ = false) := by
  refine ⟨?_, ?_, ?_⟩
  · exact (c1_fallback_runs_iff_no_text_focus "cut" ⟨none⟩
      (Or.inl rfl)).2.1 rfl
  · exact (c1_fallback_runs_iff_no_text_focus "cut"
      ⟨some ⟨true, false, some ⟨true⟩⟩⟩ (Or.inl rfl)).2.2
      ⟨true, false, some ⟨true⟩⟩ ⟨true⟩ rfl rfl rfl rfl rfl
  · exact (c1_fallback_runs_iff_no_text_focus "cut"
      ⟨some ⟨true, false, some ⟨false⟩⟩⟩ (Or.inl rfl)).1

/-- C2: for cut and copy, when a code editor has text focus and its
selection is non-empty or its empty-selection-clipboard option is enabled,
the priority-10000 implementation invokes the clipboard primitive with the
command's name and reports the command handled. -/
theorem c2_editor_handles (cmd : String) (st : FocusState) (ed : CodeEditor)
    (hcmd : cmd = "cut" ∨ cmd = "copy")
    (hst : st.focusedCodeEditor = some ed)
    (hfocus : ed.hasTextFocus = true)
    (hguard : (∃ sel, ed.selection = some sel ∧ sel.isEmpty = false) ∨
      ed.emptySelectionClipboard = true) :
    editorFocusImpl cmd st = ([Effect.execCommand cmd], true) ∧
    dispatch cmd st = ([Effect.execCommand cmd], some 10000) := by
  have himpl : editorFocusImpl cmd st = ([Effect.execCommand cmd], true) := by
    rcases hguard with ⟨sel, hsel, hne⟩ | hesc
    · rcases hcmd with h | h <;>
        simp [editorFocusImpl, h, hst, hfocus, hsel, hne]
    · rcases hcmd with h | h <;>
        rcases hselc : ed.selection with _ | sel <;>
          simp [editorFocusImpl, h, hst, hfocus, hesc, hselc]
  refine ⟨himpl, ?_⟩
  simp [dispatch, runImpls, himpl]

/-- C2 witness: a concrete text-focused editor with a non-empty selection
handles copy at priority 10000 with one clipboard call. -/
theorem c2_editor_handles_witness :
    editorFocusImpl "copy" ⟨some ⟨true, false, some ⟨false⟩⟩⟩ =
      ([Effect.execCommand "copy"], true) ∧
    dispatch "copy" ⟨some ⟨true, false, some ⟨false⟩⟩⟩ =
      ([Effect.execCommand "copy"], some 10000) :=
  c2_editor_handles "copy" ⟨some ⟨true, false, some ⟨false⟩⟩⟩
    ⟨true, false, some ⟨false⟩⟩ (Or.inr rfl) rfl rfl
    (Or.inl ⟨⟨false⟩, rfl, rfl⟩)

/-- C3: starting from the module invariant that the process-wide flag
`CopyOptions.forceCopyWithSyntaxHighlighting` is false, every path of the
copy-with-syntax-highlighting action's `run` returns with the flag false,
and whenever the path performs any step at all its trace is exactly: set
the flag, focus the editor, one `execCommand('copy')`, clear the flag. -/
theorem c3_flag_set_and_cleared (editor : CwshEditor) :
    (ExecCommandCopyWithSyntaxHighlightingAction.run editor false).2 =
      false ∧
    ((ExecCommandCopyWithSyntaxHighlightingAction.run editor false).1 = [] ∨
     (ExecCommandCopyWithSyntaxHighlightingAction.run editor false).1 =
       [ RunStep.setFlag true
       , RunStep.focusEditor
       , RunStep.execCommand "copy"
       , RunStep.setFlag false ]) := by
  unfold ExecCommandCopyWithSyntaxHighlightingAction.run
  rcases editor with ⟨hm, esc, se⟩
  cases hm <;> cases esc <;> cases se <;> simp

/-- C6: the copy-with-syntax-highlighting action's `run` returns without
any effect — empty trace, flag unchanged — whenever the editor has no
model, or the selection is empty while the empty-selection-clipboard option
is disabled. -/
theorem c6_run_no_effect (editor : CwshEditor) (flag0 : Bool)
    (h : editor.hasModel = false ∨
      (editor.selectionIsEmpty = true ∧
        editor.emptySelectionClipboard = false)) :
    ExecCommandCopyWithSyntaxHighlightingAction.run editor flag0 =
      ([], flag0) := by
  unfold ExecCommandCopyWithSyntaxHighlightingAction.run
  rcases h with hm | ⟨hse, hesc⟩
  · simp [hm]
  · rcases hm : editor.hasModel <;> simp [hse, hesc]

/-- C6 witness: a model-less editor, and an editor with an empty selection
and the option off, both leave the state untouched. -/
theorem c6_run_no_effect_witness :
    ExecCommandCopyWithSyntaxHighlightingAction.run ⟨false, true, false⟩
      true = ([], true) ∧
    ExecCommandCopyWithSyntaxHighlightingAction.run ⟨true, false, true⟩
      false = ([], false) :=
  ⟨c6_run_no_effect ⟨false, true, false⟩ true (Or.inl rfl),
   c6_run_no_effect ⟨true, false, true⟩ false (Or.inr ⟨rfl, rfl⟩)⟩

/-- C4: for each of cut, copy and paste: the exported action is defined iff
the startup capability flag holds; the command id is registered iff the
capability flag holds; and the dispatch chain that
`registerExecCommandImpl` installs has two implementations when the
capability holds and none otherwise. -/
theorem c4_registration_iff_capability (env : Env) :
    (CutAction env).isSome = supportsCut env ∧
    (CopyAction env).isSome = supportsCopy env ∧
    (PasteAction env).isSome = supportsPaste env ∧
    (registeredCommandIds env).contains "editor.action.clipboardCutAction" =
      supportsCut env ∧
    (registeredCommandIds env).contains
      "editor.action.clipboardCopyAction" = supportsCopy env ∧
    (registeredCommandIds env).contains
      "editor.action.clipboardPasteAction" = supportsPaste env ∧
    (registerExecCommandImpl (CutAction env) "cut").length =
      (if supportsCut env then 2 else 0) ∧
    (registerExecCommandImpl (CopyAction env) "copy").length =
      (if supportsCopy env then 2 else 0) ∧
    (registerExecCommandImpl (PasteAction env) "paste").length =
      (if supportsPaste env then 2 else 0) := by
  rcases h1 : supportsCut env <;> rcases h2 : supportsCopy env <;>
    rcases h3 : supportsPaste env <;>
      simp [CutAction, CopyAction, PasteAction, registeredCommandIds,
        registerExecCommandImpl, h1, h2, h3, cutCommandDesc,
        copyCommandDesc, pasteCommandDesc]

/-- C7: the empty-selection guard does not apply to paste: whenever a code
editor has text focus, the priority-10000 implementation invokes
`execCommand('paste')` and handles the command, for every selection state
and every value of the empty-selection-clipboard option. -/
theorem c7_paste_unconditional (st : FocusState) (ed : CodeEditor)
    (hst : st.focusedCodeEditor = some ed)
    (hfocus : ed.hasTextFocus = true) :
    editorFocusImpl "paste" st = ([Effect.execCommand "paste"], true) ∧
    dispatch "paste" st = ([Effect.execCommand "paste"], some 10000) := by
  have himpl : editorFocusImpl "paste" st =
      ([Effect.execCommand "paste"], true) := by
    simp [editorFocusImpl, hst, hfocus]
  exact ⟨himpl, by simp [dispatch, runImpls, himpl]⟩

/-- C7 witness: paste runs even with an empty selection and the
empty-selection-clipboard option off. -/
theorem c7_paste_unconditional_witness :
    editorFocusImpl "paste" ⟨some ⟨true, false, some ⟨true⟩⟩⟩ =
      ([Effect.execCommand "paste"], true) ∧
    dispatch "paste" ⟨some ⟨true, false, some ⟨true⟩⟩⟩ =
      ([Effect.execCommand "paste"], some 10000) :=
  c7_paste_unconditional ⟨some ⟨true, false, some ⟨true⟩⟩⟩
    ⟨true, false, some ⟨true⟩⟩ rfl rfl

/-- C5: for every registered cut/copy/paste command, the `kbOpts` record is
defined exactly when `platform.isNative` holds — with primary
Ctrl/Cmd+X, Ctrl/Cmd+C or Ctrl/Cmd+V, the platform-specific secondary
accelerators, the editor text-input-focus guard and editor-contrib weight —
and is `undefined` in the browser. -/
theorem c5_keybindings_conditional_on_platform (env : Env) :
    (∀ c, CutAction env = some c →
      c.kbOpts = if env.isNative then
        some { kbExpr := ContextKeyExpr.textInputFocus
               primary := KeyMod.CtrlCmd ||| KeyCode.KEY_X
               win := some { primary := KeyMod.CtrlCmd ||| KeyCode.KEY_X
                             secondary := [KeyMod.Shift ||| KeyCode.Delete] }
               linux := none
               weight := KeybindingWeight.EditorContrib }
      else none) ∧
    (∀ c, CopyAction env = some c →
      c.kbOpts = if env.isNative then
        some { kbExpr := ContextKeyExpr.textInputFocus
               primary := KeyMod.CtrlCmd ||| KeyCode.KEY_C
               win := some { primary := KeyMod.CtrlCmd ||| KeyCode.KEY_C
                             secondary := [KeyMod.CtrlCmd ||| KeyCode.Insert] }
               linux := none
               weight := KeybindingWeight.EditorContrib }
      else none) ∧
    (∀ c, PasteAction env = some c →
      c.kbOpts = if env.isNative then
        some { kbExpr := ContextKeyExpr.textInputFocus
               primary := KeyMod.CtrlCmd ||| KeyCode.KEY_V
               win := some { primary := KeyMod.CtrlCmd ||| KeyCode.KEY_V
                             secondary := [KeyMod.Shift ||| KeyCode.Insert] }
               linux := some { primary := KeyMod.CtrlCmd ||| KeyCode.KEY_V
                               secondary := [KeyMod.Shift ||| KeyCode.Insert] }
               weight := KeybindingWeight.EditorContrib }
      else none) := by
  refine ⟨fun c hc => ?_, fun c hc => ?_, fun c hc => ?_⟩ <;>
    [ rcases h : supportsCut env
    ; rcases h : supportsCopy env
    ; rcases h : supportsPaste env ] <;>
      simp [CutAction, CopyAction, PasteAction, h] at hc <;>
        subst hc <;>
          rcases hn : env.isNative <;>
            simp [cutCommandDesc, copyCommandDesc, pasteCommandDesc, hn]

/-- C5 witness: on a native host every capability holds and the cut
command carries the full native keybinding record. -/
theorem c5_keybindings_witness :
    (cutCommandDesc ⟨true, false, false, fun _ => false⟩).kbOpts =
      some { kbExpr := ContextKeyExpr.textInputFocus
             primary := KeyMod.CtrlCmd ||| KeyCode.KEY_X
             win := some { primary := KeyMod.CtrlCmd ||| KeyCode.KEY_X
                           secondary := [KeyMod.Shift ||| KeyCode.Delete] }
             linux := none
             weight := KeybindingWeight.EditorContrib } :=
  (c5_keybindings_conditional_on_platform
    ⟨true, false, false, fun _ => false⟩).1
    (cutCommandDesc ⟨true, false, false, fun _ => false⟩) rfl

/-- C8: in a non-native environment on Chrome, `supportsPaste` is false
whatever `document.queryCommandSupported('paste')` returns, so `PasteAction`
is `undefined` and the paste command is never registered. -/
theorem c8_chrome_browser_no_paste (env : Env)
    (hn : env.isNative = false) (hc : env.isChrome = true) :
    supportsPaste env = false ∧
    PasteAction env = none ∧
    (registeredCommandIds env).contains
      "editor.action.clipboardPasteAction" = false := by
  have hp : supportsPaste env = false := by simp [supportsPaste, hn, hc]
  refine ⟨hp, by simp [PasteAction, hp], ?_⟩
  rcases h1 : supportsCut env <;> rcases h2 : supportsCopy env <;>
    simp [registeredCommandIds, CutAction, CopyAction, PasteAction,
      h1, h2, hp, cutCommandDesc, copyCommandDesc]

/-- C8 witness: a Chrome browser environment that even reports paste
support still gets no paste command. -/
theorem c8_chrome_browser_no_paste_witness :
    supportsPaste ⟨false, true, false, fun _ => true⟩ = false ∧
    PasteAction ⟨false, true, false, fun _ => true⟩ = none ∧
    (registeredCommandIds ⟨false, true, false, fun _ => true⟩).contains
      "editor.action.clipboardPasteAction" = false :=
  c8_chrome_browser_no_paste ⟨false, true, false, fun _ => true⟩ rfl rfl

/-- C9: the copy-with-syntax-highlighting editor action is registered
exactly when copy is supported and the browser is not Edge, and its
registration carries no default keybinding: its primary key is 0. -/
theorem c9_cwsh_registration (env : Env) :
    (registeredEditorActionIds env).contains
      "editor.action.clipboardCopyWithSyntaxHighlightingAction" =
      (supportsCopy env && !env.isEdge) ∧
    supportsCopyWithSyntaxHighlighting env =
      (supportsCopy env && !env.isEdge) ∧
    copyWithSyntaxHighlightingDesc.kbOpts.map KbOpts.primary = some 0 := by
  refine ⟨?_, rfl, rfl⟩
  rcases h : supportsCopyWithSyntaxHighlighting env with _ | _ <;>
    rw [supportsCopyWithSyntaxHighlighting] at h <;>
      simp [registeredEditorActionIds, supportsCopyWithSyntaxHighlighting,
        h, copyWithSyntaxHighlightingDesc]

/-- C10: among the three clipboard commands' editor-context-menu entries,
cut and paste are guarded by the writable context key while copy carries no
condition, so copy is the only one offered in a read-only editor. -/
theorem c10_context_menu_writable (env : Env) :
    ((cutCommandDesc env).menuOpts.filter
        (fun m => m.menuId == MenuId.EditorContext)).map MenuOpt.«when» =
      [some ContextKeyExpr.writable] ∧
    ((copyCommandDesc env).menuOpts.filter
        (fun m => m.menuId == MenuId.EditorContext)).map MenuOpt.«when» =
      [none] ∧
    ((pasteCommandDesc env).menuOpts.filter
        (fun m => m.menuId == MenuId.EditorContext)).map MenuOpt.«when» =
      [some ContextKeyExpr.writable] := by
  refine ⟨?_, ?_, ?_⟩ <;>
    simp only [cutCommandDesc, copyCommandDesc, pasteCommandDesc] <;>
      decide
